import Mathlib

/-!
Shallow embedding of the MBC1 memory bank controller from
src/src/cartridge/MBC1.go (gomeboycolor).

Bytes and 16-bit addresses are modelled as Nat (addresses are assumed
< 0x10000 where it matters, via hypotheses).  Go slice indexing may
panic out of range, so bank accesses go through getElem? and the bus
operations return Option: none models a Go runtime panic.  File I/O in
SaveRam/LoadRam is abstracted to the byte blob written/read: SaveRam
returns the blob it writes (none when it does no work), LoadRam takes
an Option blob where none models a nonexistent file (os.IsNotExist).
-/

namespace GBC

/-- The two MBC1 addressing modes.  Modelled from the spec: the values
come from the repository's constants package, which is not part of this
file; only that `SIXTEENMB_ROM_8KBRAM` and `FOURMB_ROM_32KBRAM` are two
distinct mode tags matters here. -/
inductive MemMode where
  | sixteenMB_rom_8kbRam
  | fourMB_rom_32kbRam
deriving DecidableEq, Repr

/-- The MBC1 controller state, field for field from the Go struct. -/
structure MBC1 where
  Name : String
  romBank0 : List Nat
  romBanks : List (List Nat)
  ramBanks : List (List Nat)
  selectedROMBank : Nat
  selectedRAMBank : Nat
  hasRAM : Bool
  ramEnabled : Bool
  hasBattery : Bool
  MaxMemMode : MemMode
  ROMSize : Nat
  RAMSize : Nat
deriving DecidableEq, Repr

/-- Modelled from the spec: `populateRAMBanks` is defined elsewhere in
the repository's cartridge package; the spec says RAM is an ordered
sequence of 4 banks of 8 KiB each, zero-initialized at construction. -/
def populateRAMBanks (n : Nat) : List (List Nat) :=
  List.replicate n (List.replicate 0x2000 0)

/-- Modelled from the spec: `populateROMBanks` is defined elsewhere in
the repository's cartridge package; the spec says the ROM image is
partitioned into an ordered sequence of 16 KiB chunks, with
count = romSize / 16384. -/
def populateROMBanks (rom : List Nat) (n : Nat) : List (List Nat) :=
  (List.range n).map (fun i => (rom.drop (i * 0x4000)).take 0x4000)

/-- `NewMBC1`, from the Go constructor.  The Go code slices
`rom[0x0000:0x4000]` (requiring a ROM of at least 16 KiB); `take`
matches it on all such ROMs. -/
def NewMBC1 (rom : List Nat) (romSize ramSize : Nat) (hasBattery : Bool) : MBC1 :=
  { Name := "CARTRIDGE-MBC1"
    romBank0 := rom.take 0x4000
    romBanks := populateROMBanks rom (romSize / 0x4000)
    ramBanks := if 0 < ramSize then populateRAMBanks 4 else []
    selectedROMBank := 0
    selectedRAMBank := 0
    hasRAM := decide (0 < ramSize)
    ramEnabled := decide (0 < ramSize)
    hasBattery := hasBattery
    MaxMemMode := MemMode.sixteenMB_rom_8kbRam
    ROMSize := romSize
    RAMSize := ramSize }

/-- `m.ramBanks[bank][off] = value`, with none for a Go index panic. -/
def setRAMByte (m : MBC1) (bank off value : Nat) : Option MBC1 :=
  match m.ramBanks[bank]? with
  | none => none
  | some b =>
      if off < b.length then
        some { m with ramBanks := m.ramBanks.set bank (b.set off value) }
      else none

/-- `MBC1.Write`, from the Go method: an ordered dispatch over the
disjoint address windows.  none models a Go index panic. -/
def MBC1.Write (m : MBC1) (addr value : Nat) : Option MBC1 :=
  if 0x0000 ≤ addr ∧ addr ≤ 0x1FFF then
    if m.MaxMemMode = MemMode.fourMB_rom_32kbRam ∧ m.hasRAM = true then
      if value &&& 0x0F = 0x0A then some { m with ramEnabled := true }
      else some { m with ramEnabled := false }
    else some m
  else if 0x2000 ≤ addr ∧ addr ≤ 0x3FFF then
    some { m with selectedROMBank := value &&& 0x1F }
  else if 0x4000 ≤ addr ∧ addr ≤ 0x5FFF then
    some { m with selectedRAMBank := value &&& 0x03 }
  else if 0x6000 ≤ addr ∧ addr ≤ 0x7FFF then
    if value &&& 0x01 = 0x00 then
      some { m with MaxMemMode := MemMode.sixteenMB_rom_8kbRam }
    else
      some { m with MaxMemMode := MemMode.fourMB_rom_32kbRam }
  else if 0xA000 ≤ addr ∧ addr ≤ 0xBFFF then
    if m.hasRAM = true ∧ m.ramEnabled = true then
      match m.MaxMemMode with
      | MemMode.fourMB_rom_32kbRam => setRAMByte m m.selectedRAMBank (addr - 0xA000) value
      | MemMode.sixteenMB_rom_8kbRam => setRAMByte m 0 (addr - 0xA000) value
    else some m
  else some m

/-- `MBC1.Read`, from the Go method.  none models a Go index panic. -/
def MBC1.Read (m : MBC1) (addr : Nat) : Option Nat :=
  if addr < 0x4000 then
    m.romBank0[addr]?
  else if 0x4000 ≤ addr ∧ addr < 0x8000 then
    match m.romBanks[m.selectedROMBank]? with
    | none => none
    | some bank => bank[addr - 0x4000]?
  else if 0xA000 ≤ addr ∧ addr ≤ 0xC000 then
    if m.hasRAM = true ∧ m.ramEnabled = true then
      match m.MaxMemMode with
      | MemMode.fourMB_rom_32kbRam =>
          match m.ramBanks[m.selectedRAMBank]? with
          | none => none
          | some bank => bank[addr - 0xA000]?
      | MemMode.sixteenMB_rom_8kbRam =>
          match m.ramBanks[0]? with
          | none => none
          | some bank => bank[addr - 0xA000]?
    else some 0x00
  else some 0x00

/-- `MBC1.SaveRam`: writes the in-order concatenation of the RAM banks
when RAM and battery are present, otherwise writes nothing (none). -/
def MBC1.SaveRam (m : MBC1) : Option (List Nat) :=
  if m.hasRAM && m.hasBattery then some m.ramBanks.flatten else none

/-- The bank-population loop of `MBC1.LoadRam`: for i = 0..3, replace
bank i by fileBytes[i*0x2000 : (i+1)*0x2000]. -/
def loadChunks (fileBytes : List Nat) (banks : List (List Nat)) : List (List Nat) :=
  (List.range 4).foldl
    (fun bs i => bs.set i ((fileBytes.drop (i * 0x2000)).take 0x2000)) banks

/-- `MBC1.LoadRam`: src = none models a nonexistent file. -/
def MBC1.LoadRam (m : MBC1) (src : Option (List Nat)) : Except String MBC1 :=
  if m.hasRAM && m.hasBattery then
    match src with
    | none => Except.ok m
    | some fileBytes =>
        if fileBytes.length ≠ 0x8000 then
          Except.error "RAM file is not 32768 bytes!"
        else
          Except.ok { m with ramBanks := loadChunks fileBytes m.ramBanks }
  else Except.ok m

/-- A small concrete, fully specified controller state used by the
witnesses below.  Its shape matches a freshly constructed controller
with RAM and battery. -/
def mW : MBC1 :=
  { Name := "CARTRIDGE-MBC1"
    romBank0 := [1, 2, 3, 4]
    romBanks := [[5, 6], [7, 8]]
    ramBanks := List.replicate 4 (List.replicate 0x2000 0)
    selectedROMBank := 0
    selectedRAMBank := 0
    hasRAM := true
    ramEnabled := true
    hasBattery := true
    MaxMemMode := MemMode.sixteenMB_rom_8kbRam
    ROMSize := 0x8000
    RAMSize := 0x8000 }

/-- C2: for every address a < 0x4000 and every controller state
(any mode, any selected banks, any ramEnabled value), Read(a) returns
romBank0[a]. -/
theorem C2_read_is_bank0 (m : MBC1) (a : Nat) (h : a < 0x4000) :
    m.Read a = m.romBank0[a]? := by
  unfold MBC1.Read
  rw [if_pos h]

theorem C2_read_is_bank0_witness :
    (5 : Nat) < 0x4000 ∧ mW.Read 5 = mW.romBank0[5]? :=
  ⟨by decide, C2_read_is_bank0 mW 5 (by decide)⟩

/-- C5: a write to 0x0000-0x1FFF sets ramEnabled to (value & 0x0F == 0x0A)
exactly when the controller is in 4/32 mode with RAM present, and leaves
the state entirely unchanged otherwise. -/
theorem C5_ram_gate (m : MBC1) (a v : Nat) (ha : a ≤ 0x1FFF) :
    m.Write a v =
      some (if m.MaxMemMode = MemMode.fourMB_rom_32kbRam ∧ m.hasRAM = true then
              { m with ramEnabled := decide (v &&& 0x0F = 0x0A) }
            else m) := by
  unfold MBC1.Write
  rw [if_pos ⟨Nat.zero_le a, ha⟩]
  by_cases hm : m.MaxMemMode = MemMode.fourMB_rom_32kbRam ∧ m.hasRAM = true
  · rw [if_pos hm, if_pos hm]
    by_cases hv : v &&& 0x0F = 0x0A
    · rw [if_pos hv]
      simp [hv]
    · rw [if_neg hv]
      simp [hv]
  · rw [if_neg hm, if_neg hm]

theorem C5_ram_gate_witness :
    (7 : Nat) ≤ 0x1FFF ∧
      mW.Write 7 0x1A =
        some (if mW.MaxMemMode = MemMode.fourMB_rom_32kbRam ∧ mW.hasRAM = true then
                { mW with ramEnabled := decide ((0x1A : Nat) &&& 0x0F = 0x0A) }
              else mW) :=
  ⟨by decide, C5_ram_gate mW 7 0x1A (by decide)⟩

/-- C8: with RAM and battery present, loading an existing blob whose
length is not 32768 bytes yields an error; in this pure embedding no
successor state is produced, so the RAM banks of the caller's state are
untouched (the load is never partially applied). -/
theorem C8_loadram_wrong_size (m : MBC1) (src : List Nat)
    (h1 : m.hasRAM = true) (h2 : m.hasBattery = true)
    (hlen : src.length ≠ 0x8000) :
    m.LoadRam (some src) = Except.error "RAM file is not 32768 bytes!" := by
  unfold MBC1.LoadRam
  rw [h1, h2]
  simp [hlen]

theorem C8_loadram_wrong_size_witness :
    mW.hasRAM = true ∧ mW.hasBattery = true ∧
      (List.replicate 100 0).length ≠ 0x8000 ∧
      mW.LoadRam (some (List.replicate 100 0)) =
        Except.error "RAM file is not 32768 bytes!" :=
  ⟨rfl, rfl, by decide,
    C8_loadram_wrong_size mW (List.replicate 100 0) rfl rfl (by decide)⟩

/-- C10: when RAM is absent or the battery flag is false, LoadRam
returns no error and leaves the state unchanged for every source,
including one of the wrong size: the length check is skipped. -/
theorem C10_loadram_ignored (m : MBC1) (src : Option (List Nat))
    (h : m.hasRAM = false ∨ m.hasBattery = false) :
    m.LoadRam src = Except.ok m := by
  unfold MBC1.LoadRam
  rcases h with h | h <;> rw [h] <;> simp

theorem C10_loadram_ignored_witness :
    (({ mW with hasBattery := false } : MBC1).hasRAM = false ∨
      ({ mW with hasBattery := false } : MBC1).hasBattery = false) ∧
    ({ mW with hasBattery := false } : MBC1).LoadRam
        (some (List.replicate 100 0)) =
      Except.ok { mW with hasBattery := false } :=
  ⟨Or.inr rfl, C10_loadram_ignored _ _ (Or.inr rfl)⟩

/-- Reading in the upper window in 16/8 mode with RAM enabled goes
through RAM bank 0. -/
theorem read_ram_window_mode16 (m : MBC1) (a : Nat)
    (hr : m.hasRAM = true) (he : m.ramEnabled = true)
    (hm : m.MaxMemMode = MemMode.sixteenMB_rom_8kbRam)
    (ha1 : 0xA000 ≤ a) (ha2 : a ≤ 0xC000) :
    m.Read a =
      match m.ramBanks[0]? with
      | none => none
      | some bank => bank[a - 0xA000]? := by
  unfold MBC1.Read
  rw [if_neg (by omega), if_neg (by omega), if_pos (by omega),
    if_pos ⟨hr, he⟩, hm]

/-- C3 (refuted): Read is not total on reachable states.  On a freshly
constructed controller with RAM (so ramEnabled is true), reading 0xC000
falls in the inclusive RAM window `0xA000 ≤ addr ≤ 0xC000` and indexes
`ramBanks[0][0x2000]`, one byte past the end of the 8 KiB bank — a Go
runtime panic (modelled as none) instead of the open-bus 0x00. -/
theorem C3_read_0xC000_panics :
    (NewMBC1 (List.replicate 0x4000 0) 0x4000 0x2000 false).Read 0xC000 = none := by
  rw [read_ram_window_mode16 _ 0xC000 rfl rfl rfl (by norm_num) (by norm_num)]
  rw [show (NewMBC1 (List.replicate 0x4000 0) 0x4000 0x2000 false).ramBanks
      = List.replicate 4 (List.replicate 0x2000 0) from rfl]
  rw [List.getElem?_replicate, if_pos (by norm_num)]
  show (List.replicate 0x2000 (0 : Nat))[0xC000 - 0xA000]? = none
  rw [List.getElem?_replicate, if_neg (by norm_num)]

/-- C9: with RAM and battery present, loading a nonexistent source
(none) returns no error and leaves the freshly constructed controller,
whose RAM banks are zero-initialized, unchanged. -/
theorem C9_loadram_missing (rom : List Nat) (romSize ramSize : Nat)
    (hram : 0 < ramSize) :
    (NewMBC1 rom romSize ramSize true).LoadRam none =
      Except.ok (NewMBC1 rom romSize ramSize true) ∧
    (NewMBC1 rom romSize ramSize true).ramBanks =
      List.replicate 4 (List.replicate 0x2000 0) := by
  have hR : (NewMBC1 rom romSize ramSize true).hasRAM = true :=
    decide_eq_true hram
  have hbanks : (NewMBC1 rom romSize ramSize true).ramBanks
      = List.replicate 4 (List.replicate 0x2000 0) := by
    show (if 0 < ramSize then populateRAMBanks 4 else [])
      = List.replicate 4 (List.replicate 0x2000 0)
    rw [if_pos hram]
    rfl
  refine ⟨?_, hbanks⟩
  unfold MBC1.LoadRam
  rw [hR, show (NewMBC1 rom romSize ramSize true).hasBattery = true from rfl]
  rfl

theorem C9_loadram_missing_witness :
    (0 : Nat) < 0x2000 ∧
      ((NewMBC1 (List.replicate 0x4000 0) 0x4000 0x2000 true).LoadRam none =
        Except.ok (NewMBC1 (List.replicate 0x4000 0) 0x4000 0x2000 true) ∧
      (NewMBC1 (List.replicate 0x4000 0) 0x4000 0x2000 true).ramBanks =
        List.replicate 4 (List.replicate 0x2000 0)) :=
  ⟨by decide,
    C9_loadram_missing (List.replicate 0x4000 0) 0x4000 0x2000 (by decide)⟩

/-- C1: writing v to 0x2000-0x3FFF sets selectedROMBank to v & 0x1F, and
a subsequent read of any b in 0x4000-0x7FFF (no intervening write)
returns romBanks[v & 0x1F][b - 0x4000], under the precondition that
v & 0x1F is a valid index into romBanks. -/
theorem C1_rom_bank_switch (m : MBC1) (a b v : Nat)
    (ha1 : 0x2000 ≤ a) (ha2 : a ≤ 0x3FFF)
    (hb1 : 0x4000 ≤ b) (hb2 : b < 0x8000)
    (bank : List Nat) (hbank : m.romBanks[v &&& 0x1F]? = some bank) :
    m.Write a v = some { m with selectedROMBank := v &&& 0x1F } ∧
    ∀ m2, m.Write a v = some m2 → m2.Read b = bank[b - 0x4000]? := by
  have hw : m.Write a v = some { m with selectedROMBank := v &&& 0x1F } := by
    unfold MBC1.Write
    rw [if_neg (by omega), if_pos (by omega)]
  refine ⟨hw, ?_⟩
  intro m2 hm2
  rw [hw] at hm2
  injection hm2 with hm2
  subst hm2
  unfold MBC1.Read
  rw [if_neg (by omega), if_pos (by omega)]
  show (match m.romBanks[v &&& 0x1F]? with
        | none => none
        | some bk => bk[b - 0x4000]?) = bank[b - 0x4000]?
  rw [hbank]

theorem C1_rom_bank_switch_witness :
    (0x2000 : Nat) ≤ 0x2000 ∧ (0x2000 : Nat) ≤ 0x3FFF ∧
    (0x4000 : Nat) ≤ 0x4001 ∧ (0x4001 : Nat) < 0x8000 ∧
    mW.romBanks[(0x21 : Nat) &&& 0x1F]? = some [7, 8] ∧
    (mW.Write 0x2000 0x21 = some { mW with selectedROMBank := 0x21 &&& 0x1F } ∧
      ∀ m2, mW.Write 0x2000 0x21 = some m2 →
        m2.Read 0x4001 = ([7, 8] : List Nat)[0x4001 - 0x4000]?) :=
  ⟨by decide, by decide, by decide, by decide, rfl,
    C1_rom_bank_switch mW 0x2000 0x4001 0x21 (by decide) (by decide)
      (by decide) (by decide) [7, 8] rfl⟩

/-- Writing in the upper window in 16/8 mode goes through RAM bank 0
when RAM is present and enabled, and is discarded otherwise. -/
theorem write_ram_window_mode16 (m : MBC1) (a u : Nat)
    (hm : m.MaxMemMode = MemMode.sixteenMB_rom_8kbRam)
    (ha1 : 0xA000 ≤ a) (ha2 : a ≤ 0xBFFF) :
    m.Write a u =
      if m.hasRAM = true ∧ m.ramEnabled = true then
        setRAMByte m 0 (a - 0xA000) u
      else some m := by
  unfold MBC1.Write
  rw [if_neg (by omega), if_neg (by omega), if_neg (by omega),
    if_neg (by omega), if_pos (by omega)]
  by_cases h : m.hasRAM = true ∧ m.ramEnabled = true
  · rw [if_pos h, if_pos h, hm]
  · rw [if_neg h, if_neg h]

/-- C4: in 16/8 mode the RAM bank used by the 0xA000-0xBFFF window is
always bank 0: a write of any v to 0x4000-0x5FFF changes
selectedRAMBank to v & 0x03, but reads and writes in the window still
go through ramBanks[0]. -/
theorem C4_mode16_always_bank0 (m : MBC1) (v c a u : Nat)
    (hmode : m.MaxMemMode = MemMode.sixteenMB_rom_8kbRam)
    (hc1 : 0x4000 ≤ c) (hc2 : c ≤ 0x5FFF)
    (ha1 : 0xA000 ≤ a) (ha2 : a ≤ 0xBFFF) :
    m.Write c v = some { m with selectedRAMBank := v &&& 0x03 } ∧
    ({ m with selectedRAMBank := v &&& 0x03 } : MBC1).Read a =
      (if m.hasRAM = true ∧ m.ramEnabled = true then
        match m.ramBanks[0]? with
        | none => none
        | some bank => bank[a - 0xA000]?
       else some 0x00) ∧
    ({ m with selectedRAMBank := v &&& 0x03 } : MBC1).Write a u =
      (if m.hasRAM = true ∧ m.ramEnabled = true then
        setRAMByte { m with selectedRAMBank := v &&& 0x03 } 0 (a - 0xA000) u
       else some { m with selectedRAMBank := v &&& 0x03 }) := by
  refine ⟨?_, ?_, ?_⟩
  · unfold MBC1.Write
    rw [if_neg (by omega), if_neg (by omega), if_pos (by omega)]
  · by_cases h : m.hasRAM = true ∧ m.ramEnabled = true
    · rw [if_pos h]
      exact read_ram_window_mode16 _ a h.1 h.2 hmode ha1 (by omega)
    · rw [if_neg h]
      unfold MBC1.Read
      rw [if_neg (by omega), if_neg (by omega), if_pos (by omega), if_neg h]
  · have hww := write_ram_window_mode16
      { m with selectedRAMBank := v &&& 0x03 } a u hmode ha1 ha2
    by_cases h : m.hasRAM = true ∧ m.ramEnabled = true
    · rw [if_pos h]
      rw [hww, if_pos h]
    · rw [if_neg h]
      rw [hww, if_neg h]

theorem C4_mode16_always_bank0_witness :
    mW.MaxMemMode = MemMode.sixteenMB_rom_8kbRam ∧
    (0x4000 : Nat) ≤ 0x4000 ∧ (0x4000 : Nat) ≤ 0x5FFF ∧
    (0xA000 : Nat) ≤ 0xA010 ∧ (0xA010 : Nat) ≤ 0xBFFF ∧
    (mW.Write 0x4000 2 = some { mW with selectedRAMBank := 2 &&& 0x03 } ∧
      ({ mW with selectedRAMBank := 2 &&& 0x03 } : MBC1).Read 0xA010 =
        (if mW.hasRAM = true ∧ mW.ramEnabled = true then
          match mW.ramBanks[0]? with
          | none => none
          | some bank => bank[0xA010 - 0xA000]?
         else some 0x00) ∧
      ({ mW with selectedRAMBank := 2 &&& 0x03 } : MBC1).Write 0xA010 0xAB =
        (if mW.hasRAM = true ∧ mW.ramEnabled = true then
          setRAMByte { mW with selectedRAMBank := 2 &&& 0x03 } 0
            (0xA010 - 0xA000) 0xAB
         else some { mW with selectedRAMBank := 2 &&& 0x03 })) :=
  ⟨rfl, by decide, by decide, by decide, by decide,
    C4_mode16_always_bank0 mW 2 0x4000 0xA010 0xAB rfl (by decide) (by decide)
      (by decide) (by decide)⟩

/-- C6: with RAM present but disabled (gate closed), a write into
0xA000-0xBFFF leaves the whole state unchanged; re-enabling RAM (in
4/32 mode, the only mode honoring the gate) and reading the same
address returns the prior bank content, not the written value. -/
theorem C6_disabled_write_discarded (m : MBC1) (a v e : Nat)
    (hr : m.hasRAM = true) (he : m.ramEnabled = false)
    (hmode : m.MaxMemMode = MemMode.fourMB_rom_32kbRam)
    (ha1 : 0xA000 ≤ a) (ha2 : a ≤ 0xBFFF) (hee : e ≤ 0x1FFF) :
    m.Write a v = some m ∧
    ∀ m2, m.Write a v = some m2 → ∀ m3, m2.Write e 0x0A = some m3 →
      m3.Read a =
        match m.ramBanks[m.selectedRAMBank]? with
        | none => none
        | some bank => bank[a - 0xA000]? := by
  have hw : m.Write a v = some m := by
    unfold MBC1.Write
    rw [if_neg (by omega), if_neg (by omega), if_neg (by omega),
      if_neg (by omega), if_pos (by omega)]
    rw [if_neg (by simp [he])]
  refine ⟨hw, ?_⟩
  intro m2 hm2 m3 hm3
  rw [hw] at hm2
  injection hm2 with hm2
  subst hm2
  have hw2 : m.Write e 0x0A = some { m with ramEnabled := true } := by
    unfold MBC1.Write
    rw [if_pos ⟨Nat.zero_le e, hee⟩, if_pos ⟨hmode, hr⟩, if_pos (by decide)]
  rw [hw2] at hm3
  injection hm3 with hm3
  subst hm3
  unfold MBC1.Read
  rw [if_neg (by omega), if_neg (by omega), if_pos (by omega)]
  rw [if_pos (⟨hr, rfl⟩ :
    ({ m with ramEnabled := true } : MBC1).hasRAM = true ∧
      ({ m with ramEnabled := true } : MBC1).ramEnabled = true)]
  rw [show ({ m with ramEnabled := true } : MBC1).MaxMemMode
      = MemMode.fourMB_rom_32kbRam from hmode]

/-- The C6 witness state: mW with the RAM gate closed, in 4/32 mode. -/
def mW6 : MBC1 :=
  { mW with ramEnabled := false, MaxMemMode := MemMode.fourMB_rom_32kbRam }

theorem C6_disabled_write_discarded_witness :
    mW6.hasRAM = true ∧ mW6.ramEnabled = false ∧
    mW6.MaxMemMode = MemMode.fourMB_rom_32kbRam ∧
    (0xA000 : Nat) ≤ 0xA010 ∧ (0xA010 : Nat) ≤ 0xBFFF ∧ (0 : Nat) ≤ 0x1FFF ∧
    (mW6.Write 0xA010 0xAB = some mW6 ∧
    ∀ m2, mW6.Write 0xA010 0xAB = some m2 →
      ∀ m3, m2.Write 0 0x0A = some m3 →
        m3.Read 0xA010 =
          match mW6.ramBanks[mW6.selectedRAMBank]? with
          | none => none
          | some bank => bank[0xA010 - 0xA000]?) :=
  ⟨rfl, rfl, rfl, by decide, by decide, by decide,
    C6_disabled_write_discarded mW6 0xA010 0xAB 0 rfl rfl rfl (by decide)
      (by decide) (by decide)⟩

theorem exists_four_of_length (l : List (List Nat)) (h : l.length = 4) :
    ∃ a b c d, l = [a, b, c, d] := by
  match l, h with
  | [a, b, c, d], _ => exact ⟨a, b, c, d, rfl⟩

theorem foldl_range4 (f : List (List Nat) → Nat → List (List Nat))
    (init : List (List Nat)) :
    (List.range 4).foldl f init = f (f (f (f init 0) 1) 2) 3 := rfl

/-- Splitting the flat concatenation of four 8 KiB banks back into
chunks of 0x2000 recovers the banks. -/
theorem load_chunks_of_flatten (b0 b1 b2 b3 x0 x1 x2 x3 : List Nat)
    (h0 : b0.length = 0x2000) (h1 : b1.length = 0x2000)
    (h2 : b2.length = 0x2000) (h3 : b3.length = 0x2000) :
    loadChunks ([b0, b1, b2, b3].flatten) [x0, x1, x2, x3]
      = [b0, b1, b2, b3] := by
  unfold loadChunks
  have hf : [b0, b1, b2, b3].flatten = b0 ++ (b1 ++ (b2 ++ b3)) := by simp
  have c0 : ((b0 ++ (b1 ++ (b2 ++ b3))).drop (0 * 0x2000)).take 0x2000 = b0 := by
    rw [Nat.zero_mul, List.drop_zero, List.take_left' h0]
  have c1 : ((b0 ++ (b1 ++ (b2 ++ b3))).drop (1 * 0x2000)).take 0x2000 = b1 := by
    rw [Nat.one_mul, List.drop_left' h0, List.take_left' h1]
  have c2 : ((b0 ++ (b1 ++ (b2 ++ b3))).drop (2 * 0x2000)).take 0x2000 = b2 := by
    have e2 : (2 * 0x2000 : Nat) = b0.length + 0x2000 := by rw [h0]
    rw [e2, List.drop_append, List.drop_left' h1, List.take_left' h2]
  have c3 : ((b0 ++ (b1 ++ (b2 ++ b3))).drop (3 * 0x2000)).take 0x2000 = b3 := by
    have e3 : (3 * 0x2000 : Nat) = b0.length + (b1.length + 0x2000) := by
      rw [h0, h1]
    rw [e3, List.drop_append, List.drop_append, List.drop_left' h2,
      List.take_of_length_le (Nat.le_of_eq h3)]
  simp only [hf]
  rw [foldl_range4]
  rw [c0, c1, c2, c3]
  rfl

/-- LoadRam on an existing 32768-byte blob replaces the RAM banks with
the four sequential 8 KiB chunks of the blob. -/
theorem LoadRam_some_ok (m : MBC1) (fileBytes : List Nat)
    (hr : m.hasRAM = true) (hb : m.hasBattery = true)
    (hlen : fileBytes.length = 0x8000) :
    m.LoadRam (some fileBytes) =
      Except.ok { m with ramBanks := loadChunks fileBytes m.ramBanks } := by
  unfold MBC1.LoadRam
  rw [hr, hb]
  simp [hlen]

/-- C7: with RAM and battery present, SaveRam emits the in-order flat
concatenation of the 4 RAM banks (32768 bytes, no header), and LoadRam
splits such a blob back into the same 4 sequential 8 KiB banks,
restoring the contents byte-identically. -/
theorem C7_save_load_roundtrip (m m2 : MBC1)
    (hr : m.hasRAM = true) (hb : m.hasBattery = true)
    (hr2 : m2.hasRAM = true) (hb2 : m2.hasBattery = true)
    (hlen : m.ramBanks.length = 4)
    (hbk : ∀ bk ∈ m.ramBanks, bk.length = 0x2000)
    (hlen2 : m2.ramBanks.length = 4) :
    m.SaveRam = some m.ramBanks.flatten ∧
    m.ramBanks.flatten.length = 0x8000 ∧
    m2.LoadRam (some m.ramBanks.flatten) =
      Except.ok { m2 with ramBanks := m.ramBanks } := by
  obtain ⟨b0, b1, b2, b3, hB⟩ := exists_four_of_length m.ramBanks hlen
  obtain ⟨x0, x1, x2, x3, hX⟩ := exists_four_of_length m2.ramBanks hlen2
  have h0 : b0.length = 0x2000 := hbk b0 (by rw [hB]; simp)
  have h1 : b1.length = 0x2000 := hbk b1 (by rw [hB]; simp)
  have h2 : b2.length = 0x2000 := hbk b2 (by rw [hB]; simp)
  have h3 : b3.length = 0x2000 := hbk b3 (by rw [hB]; simp)
  have hsave : m.SaveRam = some m.ramBanks.flatten := by
    unfold MBC1.SaveRam
    rw [hr, hb]
    rfl
  have hflatlen : m.ramBanks.flatten.length = 0x8000 := by
    rw [hB]
    simp [h0, h1, h2, h3]
  refine ⟨hsave, hflatlen, ?_⟩
  have hchunks : loadChunks m.ramBanks.flatten m2.ramBanks = m.ramBanks := by
    rw [hX]
    simp only [hB]
    exact load_chunks_of_flatten b0 b1 b2 b3 x0 x1 x2 x3 h0 h1 h2 h3
  rw [LoadRam_some_ok m2 m.ramBanks.flatten hr2 hb2 hflatlen, hchunks]

theorem C7_save_load_roundtrip_witness :
    mW.hasRAM = true ∧ mW.hasBattery = true ∧
    mW.ramBanks.length = 4 ∧ (∀ bk ∈ mW.ramBanks, bk.length = 0x2000) ∧
    (mW.SaveRam = some mW.ramBanks.flatten ∧
      mW.ramBanks.flatten.length = 0x8000 ∧
      mW.LoadRam (some mW.ramBanks.flatten) =
        Except.ok { mW with ramBanks := mW.ramBanks }) :=
  ⟨rfl, rfl, rfl,
    fun bk hbk => by
      rw [List.eq_of_mem_replicate (show bk ∈ List.replicate 4
        (List.replicate 0x2000 0) from hbk)]
      rw [List.length_replicate],
    C7_save_load_roundtrip mW mW rfl rfl rfl rfl rfl
      (fun bk hbk => by
        rw [List.eq_of_mem_replicate (show bk ∈ List.replicate 4
          (List.replicate 0x2000 0) from hbk)]
        rw [List.length_replicate])
      rfl⟩

end GBC
